import Mathlib

/-!
Shallow embedding of the CredStore cross-store consistency core
(the event bus, the rating-aggregation handler, the review DAO and
the review service write path), translated from:

* `src/product_reviews/events/event_bus.py`
* `src/product_reviews/events/handlers.py`
* `src/product_reviews/events/review_events.py`
* `src/product_reviews/dao/review_dao.py`, `src/product_reviews/dao/base_dao.py`
* `src/product_reviews/services/review_service.py`

Numeric values flow through `ℚ` (the Python source computes with machine
floats; the rational model is the exact idealisation of the same formulas).
Logging is not modelled; where the source catches an exception and only
logs it, the model either returns the caught-branch value or uses an
`Except`-typed result whose error constructor is shown unreachable.
-/

namespace CredStore

/-- Model of `ReviewStatus` from `models.py`: ACTIVE or INACTIVE (soft deleted). -/
inductive ReviewStatus where
  | active
  | inactive
deriving DecidableEq, Repr

/-- A row of the `reviews` relational table (`models.py`, class `Review`).
The `id` and `product_id` are strings (UUID text and Mongo ObjectId text);
timestamps are abstracted to naturals. -/
structure Review where
  id : String
  product_id : String
  user_id : String
  rating : Int
  description : String
  status : ReviewStatus
  created_at : Nat
  updated_at : Nat
deriving DecidableEq, Repr

/-! ## Python `round(x, 2)` on exact rationals (banker rounding). -/

/-- Floor of a rational. -/
def qfloor (q : ℚ) : ℤ := ⌊q⌋

/-- Round a rational to the nearest integer, ties to the even neighbour,
the rounding mode of Python `round`. -/
def roundHalfEven (q : ℚ) : ℤ :=
  let n : ℤ := qfloor q
  let f : ℚ := q - (n : ℚ)
  if f < 1 / 2 then n
  else if 1 / 2 < f then n + 1
  else if n % 2 = 0 then n else n + 1

/-- Python `round(q, 2)`: round to two decimal places, ties to even. -/
def round2 (q : ℚ) : ℚ := ((roundHalfEven (100 * q) : ℚ)) / 100

/-! ## Relational read side (`dao/review_dao.py`). -/

/-- Outcome of executing the relational query inside
`ReviewDAO.get_reviews_by_product` (lines 49-61): either the table rows are
available, or the query raises (for example a store timeout). -/
inductive RelationalRead where
  | ok (rows : List Review)
  | failure (msg : String)
deriving Repr

/-- The WHERE clause of `get_reviews_by_product` (lines 54-57): rows of the
product that are in ACTIVE status. -/
def active_reviews (rows : List Review) (product_id : String) : List Review :=
  rows.filter (fun r => r.product_id == product_id && r.status == ReviewStatus.active)

/-- The ORDER BY clause of `get_reviews_by_product` (line 58):
`created_at` descending. -/
def order_by_created_desc (l : List Review) : List Review :=
  l.mergeSort (fun a b => decide (b.created_at ≤ a.created_at))

/-- Model of `ReviewDAO.get_reviews_by_product(product_id, limit, offset)`
(`dao/review_dao.py` lines 47-64): active reviews of the product, newest
first, OFFSET then LIMIT applied; if the query raises, the exception is
caught, logged, and the empty list is returned (lines 62-64). -/
def get_reviews_by_product (store : RelationalRead) (product_id : String)
    (limit : Nat) (offset : Nat) : List Review :=
  match store with
  | RelationalRead.failure _ => []
  | RelationalRead.ok rows =>
      (((order_by_created_desc (active_reviews rows product_id)).drop offset).take limit)

/-- Model of `BaseDAO.get_by_id` (`dao/base_dao.py` lines 19-24): the row with the
given primary key, `none` when absent. -/
def get_by_id (rows : List Review) (item_id : String) : Option Review :=
  rows.find? (fun r => r.id == item_id)

/-- Model of `ReviewDAO.soft_delete_review` (`dao/review_dao.py` lines 101-107):
flip the status of the row to INACTIVE and refresh `updated_at`. -/
def soft_delete_review (rows : List Review) (review_id : String) (now : Nat) : List Review :=
  rows.map (fun x =>
    if x.id == review_id then
      { x with status := ReviewStatus.inactive, updated_at := now }
    else x)

/-! ## Catalog (Mongo) side (`events/handlers.py`). -/

/-- A product document of the homepage Mongo collection, restricted to the
fields the handler touches. -/
structure CatalogProduct where
  oid : String
  rating : Option ℚ
  updated_at : Nat
deriving DecidableEq, Repr

/-- The homepage product collection. -/
abbrev CatalogStore := List CatalogProduct

/-- Model of `bson.ObjectId.is_valid`: a 24 character hex string. -/
def objectIdValid (s : String) : Bool :=
  s.length == 24 && s.toList.all (fun c =>
    c.isDigit || (('a' ≤ c && c ≤ 'f') || ('A' ≤ c && c ≤ 'F')))

/-- Motor `collection.update_one({_id: oid}, {$set: {rating, updated_at}})`
(`handlers.py` lines 86-89): update every matching document, and report the
matched count. -/
def update_one (store : CatalogStore) (oid : String) (rating : Option ℚ)
    (now : Nat) : CatalogStore × Nat :=
  (store.map (fun p => if p.oid == oid then { p with rating := rating, updated_at := now } else p),
   (store.filter (fun p => p.oid == oid)).length)

/-- Model of `_update_mongodb_rating` (`handlers.py` lines 71-99): skip when the
collection is unavailable (lines 74-76) or the product id is not a valid
ObjectId (lines 79-81); if the Mongo call raises, the exception is caught
and logged (lines 98-99) leaving the store unchanged; otherwise perform the
`$set` update. -/
def update_mongodb_rating (connected : Bool) (mongoFailure : Bool)
    (store : CatalogStore) (now : Nat) (product_id : String)
    (rating : Option ℚ) : CatalogStore :=
  if connected = false then store
  else if objectIdValid product_id = false then store
  else if mongoFailure then store
  else (update_one store product_id rating now).1

/-- The external state one invocation of the rating-aggregation handler
runs against: Mongo connectivity, whether the Mongo write raises, the
relational read outcome, the catalog collection, and the wall clock. -/
structure HandlerCtx where
  connected : Bool
  mongoFailure : Bool
  relational : RelationalRead
  catalog : CatalogStore
  now : Nat

/-- Model of `_update_product_rating` (`handlers.py` lines 31-68): bail out if Mongo
is not connected (lines 40-42); read the active reviews with
`limit=10000, offset=0` (line 47); with no reviews write a null rating
(lines 49-52), otherwise write the two-decimal rounded mean (lines 54-65).
The outer `try` (lines 38, 67-68) cannot fire in the model because every
callee catches its own exceptions. -/
def update_product_rating (ctx : HandlerCtx) (product_id : String) : CatalogStore :=
  if ctx.connected = false then ctx.catalog
  else
    let reviews := get_reviews_by_product ctx.relational product_id 10000 0
    if reviews.isEmpty then
      update_mongodb_rating ctx.connected ctx.mongoFailure ctx.catalog ctx.now product_id none
    else
      let total : ℚ := (reviews.map (fun r => (r.rating : ℚ))).sum
      let avg : ℚ := round2 (total / (reviews.length : ℚ))
      update_mongodb_rating ctx.connected ctx.mongoFailure ctx.catalog ctx.now product_id (some avg)

/-- The rating stored for `oid` in the catalog, `none` when no document has
that id. -/
def catalog_rating (store : CatalogStore) (oid : String) : Option (Option ℚ) :=
  (store.find? (fun p => p.oid == oid)).map (fun p => p.rating)

/-! ## Event model (`events/review_events.py`). -/

/-- The three event dataclasses as a closed sum; the Python bus dispatches
on `type(event)` and exactly these three types exist. Timestamps are
naturals. -/
inductive Event where
  | reviewCreated (product_id review_id user_id : String) (rating : Int) (timestamp : Nat)
  | reviewUpdated (product_id review_id : String) (rating : Int) (timestamp : Nat)
  | reviewDeleted (product_id review_id : String) (timestamp : Nat)
deriving DecidableEq, Repr

/-- The dispatch key of the bus: the runtime class of the event. -/
inductive EventKind where
  | created
  | updated
  | deleted
deriving DecidableEq, Repr

/-- The runtime class `type(event)` as seen by `EventBus.publish` (line 52). -/
def Event.kind : Event → EventKind
  | Event.reviewCreated _ _ _ _ _ => EventKind.created
  | Event.reviewUpdated _ _ _ _ => EventKind.updated
  | Event.reviewDeleted _ _ _ => EventKind.deleted

/-- The `product_id` field every variant carries. -/
def Event.product_id : Event → String
  | Event.reviewCreated p _ _ _ _ => p
  | Event.reviewUpdated p _ _ _ => p
  | Event.reviewDeleted p _ _ => p

/-! ## Event bus (`events/event_bus.py`).

Handlers are opaque tokens of an arbitrary type `H`: `publish` stores and
forwards them but can never invoke them, mirroring the source where
`publish` only hands the callable to the executor. Event loops are
abstracted to identifiers with a liveness map (`is_running`). -/

/-- Model of the `EventBus` state (lines 20-23): the `_subscribers` dict as a total map
from event kind to handler list (absent key = empty list), and the
captured `_main_loop` reference. -/
structure EventBus (H : Type) where
  subscribers : EventKind → List H
  mainLoop : Option Nat

/-- The bus as constructed (lines 20-23, module-level `event_bus`). -/
def EventBus.empty (H : Type) : EventBus H :=
  { subscribers := fun _ => [], mainLoop := none }

/-- Model of `EventBus.subscribe` (lines 25-35): append the handler to the list of
its event kind, creating the list on first use. -/
def EventBus.subscribe {H : Type} (bus : EventBus H) (kind : EventKind) (h : H) :
    EventBus H :=
  { bus with
    subscribers := fun k =>
      if k = kind then bus.subscribers k ++ [h] else bus.subscribers k }

/-- Lines 43-50 of `publish`: capture the running loop. `current` is the
result of `asyncio.get_running_loop` (`none` when it raises); `live` is
`is_running` of a stored loop. The captured reference is overwritten only
when absent or dead. -/
def EventBus.capture_loop {H : Type} (bus : EventBus H) (current : Option Nat)
    (live : Nat → Bool) : EventBus H :=
  match current with
  | none => bus
  | some l =>
      match bus.mainLoop with
      | none => { bus with mainLoop := some l }
      | some m => if live m then bus else { bus with mainLoop := some l }

/-- One unit of work handed to the `ThreadPoolExecutor`: a handler token
together with the event it will receive. -/
structure Dispatch (H : Type) where
  handler : H
  event : Event
deriving DecidableEq, Repr

/-- Model of `EventBus.publish` (lines 37-65): capture the loop, look up the
handlers of the runtime event type, return at once when there are none
(lines 55-57), otherwise submit one dispatch unit per handler; a failing
`executor.submit` is caught and logged per handler (lines 62-65). The
`submit` parameter is the outcome of each submission attempt; the
`Except`-typed result records that nothing escapes to the caller. -/
def EventBus.publish {H : Type} (bus : EventBus H) (current : Option Nat)
    (live : Nat → Bool) (e : Event) (submit : H → Event → Except String Unit) :
    Except String (EventBus H × List (Dispatch H)) :=
  let bus1 := bus.capture_loop current live
  let hs := bus1.subscribers e.kind
  if hs.isEmpty then Except.ok (bus1, [])
  else
    Except.ok (bus1, hs.filterMap (fun h =>
      match submit h e with
      | Except.ok _ => some { handler := h, event := e }
      | Except.error _ => none))

/-- The log record a worker leaves behind for one dispatch. -/
inductive ExecLog where
  | success
  | asyncHandlerError (msg : String)
  | handlerError (msg : String)
deriving DecidableEq, Repr

/-- The body of `EventBus._execute_handler` (lines 74-94) before its outer
`try`. `run` is the handler semantics (`Except.error` = the handler
raises). Async handler on a live main loop: the hand-off result is awaited
and a failure is caught by the inner `try` (lines 78-82). Async handler
without a live main loop: a throwaway loop runs it and an escaping
exception propagates (lines 84-91). Sync handler: called directly
(line 93), an exception propagates. -/
def execute_handler_body (isAsync mainLive : Bool)
    (run : Event → Except String Unit) (e : Event) : Except String ExecLog :=
  if isAsync then
    if mainLive then
      match run e with
      | Except.ok _ => Except.ok ExecLog.success
      | Except.error m => Except.ok (ExecLog.asyncHandlerError m)
    else
      match run e with
      | Except.ok _ => Except.ok ExecLog.success
      | Except.error m => Except.error m
  else
    match run e with
    | Except.ok _ => Except.ok ExecLog.success
    | Except.error m => Except.error m

/-- Model of `EventBus._execute_handler` (lines 67-96): the outer `try` catches and
logs every exception that escapes the body (lines 95-96), so the worker
always survives. -/
def execute_handler (isAsync mainLive : Bool)
    (run : Event → Except String Unit) (e : Event) : Except String ExecLog :=
  match execute_handler_body isAsync mainLive run e with
  | Except.ok l => Except.ok l
  | Except.error m => Except.ok (ExecLog.handlerError m)

/-- True exactly on `Except.ok`. -/
def exceptOk {ε α : Type} : Except ε α → Bool
  | Except.ok _ => true
  | Except.error _ => false

/-! ## Handler registration (`events/handlers.py` lines 102-114). -/

/-- References to the three registered handler functions of
`events/handlers.py`. -/
inductive HandlerRef where
  | on_review_created
  | on_review_updated
  | on_review_deleted
deriving DecidableEq, Repr

/-- The handler `setup_event_handlers` registers for each event kind. -/
def handler_for : EventKind → HandlerRef
  | EventKind.created => HandlerRef.on_review_created
  | EventKind.updated => HandlerRef.on_review_updated
  | EventKind.deleted => HandlerRef.on_review_deleted

/-- Model of `setup_event_handlers` (`handlers.py` lines 102-114): subscribe the
rating-aggregation handler to the three event kinds. -/
def setup_event_handlers (bus : EventBus HandlerRef) : EventBus HandlerRef :=
  ((bus.subscribe EventKind.created HandlerRef.on_review_created).subscribe
      EventKind.updated HandlerRef.on_review_updated).subscribe
    EventKind.deleted HandlerRef.on_review_deleted

/-! ## Review service write path (`services/review_service.py`).

The service is modelled as pure state transformation on the review table,
returning the new table together with the list of events handed to
`EventBus.publish`. External validators (user lookup, Mongo product
lookup) are boolean inputs; metrics and the response formatting, which
touch no review row and publish nothing, are omitted. The `_emit_*`
helpers (lines 203-252) skip emission when the service was built without
an event bus, hence the `bus_attached` flag. -/

/-- Service-level failure (`base_service.py` exception classes). -/
inductive SvcError where
  | validation (msg : String)
  | notFound (what : String) (item_id : String)
deriving DecidableEq, Repr

/-- The fields of an update request (`ReviewUpdate` schema): every field
optional. -/
structure ReviewUpdate where
  rating : Option Int
  description : Option String
  upvotes : Option Int
  downvotes : Option Int
deriving DecidableEq, Repr

/-- Model of `ReviewDAO.update_review` applied to one row (`dao/review_dao.py`
lines 84-99): set `rating` and `description` when provided and refresh
`updated_at` when anything was provided. -/
def apply_review_update (r : Review) (upd : ReviewUpdate) (now : Nat) : Review :=
  if upd.rating = none ∧ upd.description = none then r
  else
    { r with
      rating := upd.rating.getD r.rating,
      description := upd.description.getD r.description,
      updated_at := now }

/-- Model of `ReviewService.create_review` (lines 36-71): validate the user, the
product and the one-review-per-user rule, insert the ACTIVE row, then emit
exactly one `ReviewCreated` (lines 57-62) when an event bus is attached. -/
def create_review (bus_attached : Bool) (db : List Review)
    (userOk productOk : Bool) (product_id user_id : String) (rating : Int)
    (description : String) (new_id : String) (now : Nat) :
    Except SvcError (List Review × List Event) :=
  if userOk = false then Except.error (SvcError.validation ("Invalid user ID"))
  else if productOk = false then Except.error (SvcError.validation ("Product not found"))
  else if db.any (fun r => r.user_id == user_id && r.product_id == product_id) then
    Except.error (SvcError.validation ("User has already reviewed this product"))
  else
    let row : Review :=
      { id := new_id, product_id := product_id, user_id := user_id,
        rating := rating, description := description,
        status := ReviewStatus.active, created_at := now, updated_at := now }
    Except.ok (db ++ [row],
      if bus_attached then
        [Event.reviewCreated product_id new_id user_id rating now]
      else [])

/-- Model of `ReviewService.update_review` (lines 95-129): look the row up, apply
the DAO update, and emit one `ReviewUpdated` only when the request carries
a rating (lines 115-120). -/
def update_review (bus_attached : Bool) (db : List Review) (review_id : String)
    (upd : ReviewUpdate) (now : Nat) :
    Except SvcError (List Review × List Event) :=
  match db.find? (fun r => r.id == review_id) with
  | none => Except.error (SvcError.notFound ("Review") review_id)
  | some r =>
      let db1 := db.map (fun x =>
        if x.id == review_id then apply_review_update x upd now else x)
      Except.ok (db1,
        match upd.rating with
        | some rt =>
            if bus_attached then
              [Event.reviewUpdated r.product_id review_id rt now]
            else []
        | none => [])

/-- Model of `ReviewService.delete_review` (lines 131-148): look the row up, remove
it through `BaseDAO.delete` / `delete_instance` (`base_dao.py` lines
49-56) — a hard delete of the row, not a status change — then emit one
`ReviewDeleted` (lines 142-145). -/
def delete_review (bus_attached : Bool) (db : List Review) (review_id : String)
    (now : Nat) : Except SvcError (List Review × List Event) :=
  match db.find? (fun r => r.id == review_id) with
  | none => Except.error (SvcError.notFound ("Review") review_id)
  | some r =>
      Except.ok (db.filter (fun x => x.id != review_id),
        if bus_attached then
          [Event.reviewDeleted r.product_id review_id now]
        else [])

/-- The events a service call handed to `publish`, `none` when the call
failed. -/
def published_events (res : Except SvcError (List Review × List Event)) :
    Option (List Event) :=
  match res with
  | Except.ok (_, evs) => some evs
  | Except.error _ => none

/-- The review table a service call left behind, `none` when the call
failed. -/
def resulting_rows (res : Except SvcError (List Review × List Event)) :
    Option (List Review) :=
  match res with
  | Except.ok (rows, _) => some rows
  | Except.error _ => none

/-- The number of dispatch units a publish call submitted, `none` when the
call raised. -/
def dispatch_count {H : Type} (res : Except String (EventBus H × List (Dispatch H))) :
    Option Nat :=
  match res with
  | Except.ok (_, ds) => some ds.length
  | Except.error _ => none

/-! ## Concrete instances used by witnesses and counterexamples. -/

/-- A syntactically valid Mongo ObjectId (24 hex characters). -/
def oid24 : String := "aaaaaaaaaaaaaaaaaaaaaaaa"

/-- A second valid ObjectId, for the large-table scenario. -/
def oidBig : String := "bbbbbbbbbbbbbbbbbbbbbbbb"

/-- A sample event instance. -/
def sample_event : Event := Event.reviewCreated oid24 ("r1") ("u1") 5 0

/-- A sample active review row. -/
def sample_row : Review :=
  { id := "r1", product_id := oid24, user_id := "u1", rating := 3,
    description := "ok", status := ReviewStatus.active,
    created_at := 0, updated_at := 0 }

/-- An update request that carries no rating, only a new description. -/
def desc_only_update : ReviewUpdate :=
  { rating := none, description := some ("better"), upvotes := none, downvotes := none }

/-- Three active reviews of the product `oid24` with ratings 4, 5 and 2. -/
def w_r1 : Review :=
  { id := "w1", product_id := oid24, user_id := "ua", rating := 4,
    description := "", status := ReviewStatus.active, created_at := 0, updated_at := 0 }

/-- Second sample review, rating 5. -/
def w_r2 : Review := { w_r1 with id := "w2", user_id := "ub", rating := 5 }

/-- Third sample review, rating 2. -/
def w_r3 : Review := { w_r1 with id := "w3", user_id := "uc", rating := 2 }

/-- The table holding the three sample reviews. -/
def wdb : List Review := [w_r1, w_r2, w_r3]

/-- Handler context for the three-review scenario: healthy stores, one
catalog document for the product. -/
def ctxMean : HandlerCtx :=
  { connected := true, mongoFailure := false,
    relational := RelationalRead.ok wdb,
    catalog := [{ oid := oid24, rating := none, updated_at := 0 }],
    now := 9 }

/-- Handler context with an empty review table and a catalog document whose
rating is currently set. -/
def ctxEmpty : HandlerCtx :=
  { connected := true, mongoFailure := false,
    relational := RelationalRead.ok [],
    catalog := [{ oid := oid24, rating := some 4, updated_at := 3 }],
    now := 11 }

/-- Handler context in which the relational read raises (store timeout)
while Mongo is healthy and the catalog holds a rating. -/
def ctxC3 : HandlerCtx :=
  { connected := true, mongoFailure := false,
    relational := RelationalRead.failure ("relational store timeout"),
    catalog := [{ oid := oid24, rating := some (9/2), updated_at := 7 }],
    now := 42 }

/-- A review of the big-table product with rating 3 (the newest block). -/
def row3 : Review :=
  { id := "b3", product_id := oidBig, user_id := "u", rating := 3,
    description := "", status := ReviewStatus.active, created_at := 0, updated_at := 0 }

/-- A review of the big-table product with rating 2. -/
def row2 : Review := { row3 with id := "b2", rating := 2 }

/-- A review of the big-table product with rating 1 (the oldest row, the
one the 10000-row cap pushes out of the read). -/
def row1 : Review := { row3 with id := "b1", rating := 1 }

/-- A table with 10001 active reviews of one product: 9950 threes, then 50
twos, then a single one. -/
def big_db : List Review :=
  List.replicate 9950 row3 ++ (List.replicate 50 row2 ++ [row1])

/-- Handler context over the 10001-review table. -/
def ctxBig : HandlerCtx :=
  { connected := true, mongoFailure := false,
    relational := RelationalRead.ok big_db,
    catalog := [{ oid := oidBig, rating := none, updated_at := 0 }],
    now := 1 }

/-! ## Helper lemmas. -/

theorem filterMap_some_eq_map {α β : Type} (f : α → β) (l : List α) :
    l.filterMap (fun a => some (f a)) = l.map f := by
  induction l with
  | nil => rfl
  | cons a l ih => simp [List.filterMap_cons, ih]

theorem pairwise_of_all {α : Type} {R : α → α → Prop} :
    ∀ (l : List α), (∀ a ∈ l, ∀ b ∈ l, R a b) → l.Pairwise R
  | [], _ => List.Pairwise.nil
  | a :: l, h =>
    List.Pairwise.cons
      (fun b hb => h a (List.mem_cons_self a l) b (List.mem_cons_of_mem a hb))
      (pairwise_of_all l (fun x hx y hy =>
        h x (List.mem_cons_of_mem a hx) y (List.mem_cons_of_mem a hy)))

theorem order_by_created_desc_of_sorted {l : List Review}
    (h : l.Pairwise (fun a b => b.created_at ≤ a.created_at)) :
    order_by_created_desc l = l := by
  unfold order_by_created_desc
  exact List.mergeSort_of_sorted (h.imp (fun hab => by simpa using hab))

theorem find?_update_one (c : CatalogStore) (oid : String) (r : Option ℚ) (t : Nat) :
    (update_one c oid r t).1.find? (fun p => p.oid == oid) =
      (c.find? (fun p => p.oid == oid)).map
        (fun p => { p with rating := r, updated_at := t }) := by
  induction c with
  | nil => rfl
  | cons p c ih =>
      simp only [update_one, List.map_cons, List.find?_cons] at ih ⊢
      by_cases h : p.oid == oid
      · simp [h]
      · simp only [h, if_false, Bool.false_eq_true]
        exact ih

theorem catalog_rating_update_one (c : CatalogStore) (oid : String) (r : Option ℚ) (t : Nat) :
    catalog_rating (update_one c oid r t).1 oid =
      (catalog_rating c oid).map (fun _ => r) := by
  unfold catalog_rating
  rw [find?_update_one, Option.map_map, Option.map_map]
  rfl

theorem catalog_rating_after_clear (ctx : HandlerCtx) (pid : String)
    (hconn : ctx.connected = true) (hmf : ctx.mongoFailure = false)
    (hoid : objectIdValid pid = true)
    (hread : get_reviews_by_product ctx.relational pid 10000 0 = []) :
    catalog_rating (update_product_rating ctx pid) pid =
      (catalog_rating ctx.catalog pid).map (fun _ => (none : Option ℚ)) := by
  unfold update_product_rating
  rw [hconn, hread]
  simp [update_mongodb_rating, hconn, hmf, hoid, catalog_rating_update_one]

theorem catalog_rating_after_mean (ctx : HandlerCtx) (pid : String)
    (reviews : List Review)
    (hconn : ctx.connected = true) (hmf : ctx.mongoFailure = false)
    (hoid : objectIdValid pid = true)
    (hread : get_reviews_by_product ctx.relational pid 10000 0 = reviews)
    (hne : reviews ≠ []) :
    catalog_rating (update_product_rating ctx pid) pid =
      (catalog_rating ctx.catalog pid).map (fun _ =>
        some (round2 (((reviews.map (fun r => (r.rating : ℚ))).sum) /
          (reviews.length : ℚ)))) := by
  unfold update_product_rating
  rw [hconn, hread]
  simp [List.isEmpty_iff, hne, update_mongodb_rating, hmf, hoid,
    catalog_rating_update_one]

theorem update_mongodb_rating_idem (conn mf : Bool) (c : CatalogStore)
    (now : Nat) (pid : String) (r : Option ℚ) :
    update_mongodb_rating conn mf (update_mongodb_rating conn mf c now pid r) now pid r =
      update_mongodb_rating conn mf c now pid r := by
  cases conn with
  | false => simp [update_mongodb_rating]
  | true =>
      cases mf with
      | true => simp [update_mongodb_rating]
      | false =>
          by_cases h2 : objectIdValid pid = false
          · simp [update_mongodb_rating, h2]
          · simp only [update_mongodb_rating, h2, if_false, ite_false,
              Bool.false_eq_true, Bool.true_eq_false, update_one, List.map_map]
            congr 1
            funext p
            by_cases hp : p.oid == pid <;> simp [Function.comp, hp]

theorem update_product_rating_idem (ctx : HandlerCtx) (pid : String) (c : CatalogStore) :
    update_product_rating
        { ctx with catalog := update_product_rating { ctx with catalog := c } pid } pid =
      update_product_rating { ctx with catalog := c } pid := by
  unfold update_product_rating
  by_cases h1 : ctx.connected = false
  · simp [h1]
  · by_cases h2 : (get_reviews_by_product ctx.relational pid 10000 0).isEmpty <;>
      simp [h1, h2, update_mongodb_rating_idem]

/-! ## Claim theorems. -/

/-- C1: For every non-empty list of active reviews returned for a product,
one invocation of the rating-aggregation handler computes the target
aggregate as round(mean(ratings), 2) — the sum of the ratings divided by
their count, rounded to two decimal places — and writes exactly that value
to the catalog record for that product. -/
theorem aggregate_is_rounded_mean (ctx : HandlerCtx) (pid : String)
    (reviews : List Review)
    (hconn : ctx.connected = true) (hmf : ctx.mongoFailure = false)
    (hoid : objectIdValid pid = true)
    (hread : get_reviews_by_product ctx.relational pid 10000 0 = reviews)
    (hne : reviews ≠ []) :
    catalog_rating (update_product_rating ctx pid) pid =
      (catalog_rating ctx.catalog pid).map (fun _ =>
        some (round2 (((reviews.map (fun r => (r.rating : ℚ))).sum) /
          (reviews.length : ℚ)))) :=
  catalog_rating_after_mean ctx pid reviews hconn hmf hoid hread hne

/-- Witness for C1: with active reviews rated 4, 5 and 2, the handler
stores round((4+5+2)/3, 2) = 3.67 on the catalog record. -/
theorem aggregate_is_rounded_mean_witness :
    catalog_rating (update_product_rating ctxMean oid24) oid24 =
      some (some (367 / 100)) := by
  have hact : active_reviews wdb oid24 = wdb := by decide
  have hsort : order_by_created_desc wdb = wdb :=
    order_by_created_desc_of_sorted (by decide)
  have hread : get_reviews_by_product ctxMean.relational oid24 10000 0 = wdb := by
    show get_reviews_by_product (RelationalRead.ok wdb) oid24 10000 0 = wdb
    simp only [get_reviews_by_product]
    rw [hact, hsort]
    decide
  have h := aggregate_is_rounded_mean ctxMean oid24 wdb rfl rfl (by decide)
    hread (by decide)
  rw [h]
  have hsum : ((wdb.map (fun r => (r.rating : ℚ))).sum) = 11 := by
    simp [wdb, w_r1, w_r2, w_r3]
    norm_num
  rw [hsum]
  have hr2 : round2 ((11 : ℚ) / ((wdb.length : Nat) : ℚ)) = 367 / 100 := by
    norm_num [wdb, w_r1, w_r2, w_r3, round2, roundHalfEven, qfloor]
  rw [hr2]
  simp [catalog_rating, ctxMean, oid24]

/-- C2: For every product whose read of active reviews returns the empty
list, the handler writes an absent/null aggregate — not the number zero —
to the catalog record for that product. -/
theorem aggregate_cleared_when_no_reviews (ctx : HandlerCtx) (pid : String)
    (hconn : ctx.connected = true) (hmf : ctx.mongoFailure = false)
    (hoid : objectIdValid pid = true)
    (hread : get_reviews_by_product ctx.relational pid 10000 0 = []) :
    catalog_rating (update_product_rating ctx pid) pid =
      (catalog_rating ctx.catalog pid).map (fun _ => (none : Option ℚ)) ∧
    ∀ q : ℚ, catalog_rating (update_product_rating ctx pid) pid ≠ some (some q) ∨
      (catalog_rating ctx.catalog pid) = none := by
  have h := catalog_rating_after_clear ctx pid hconn hmf hoid hread
  refine ⟨h, fun q => ?_⟩
  cases hc : catalog_rating ctx.catalog pid with
  | none => exact Or.inr rfl
  | some v =>
      refine Or.inl ?_
      rw [h, hc]
      simp

/-- Witness for C2: with an empty review table the handler clears the
stored rating to null, and in particular does not store the number 0. -/
theorem aggregate_cleared_when_no_reviews_witness :
    catalog_rating (update_product_rating ctxEmpty oid24) oid24 = some none ∧
    catalog_rating (update_product_rating ctxEmpty oid24) oid24 ≠ some (some 0) := by
  have hread : get_reviews_by_product ctxEmpty.relational oid24 10000 0 = [] := by
    show get_reviews_by_product (RelationalRead.ok []) oid24 10000 0 = []
    simp only [get_reviews_by_product]
    simp [order_by_created_desc, active_reviews]
  have h := aggregate_cleared_when_no_reviews ctxEmpty oid24 rfl rfl (by decide) hread
  have h1 : catalog_rating (update_product_rating ctxEmpty oid24) oid24 = some none := by
    rw [h.1]
    simp [catalog_rating, ctxEmpty, oid24]
  refine ⟨h1, ?_⟩
  rw [h1]
  simp

/-- Counterexample to C3 as stated: with the relational read failing (store
timeout) and Mongo healthy, the handler does NOT leave the catalog record
unchanged — the DAO swallows the failure into an empty list and the
handler writes a null aggregate over the previously stored rating 4.5. -/
theorem read_failure_counterexample :
    update_product_rating ctxC3 oid24 =
      [{ oid := oid24, rating := none, updated_at := 42 }] ∧
    update_product_rating ctxC3 oid24 ≠ ctxC3.catalog := by
  have h1 : update_product_rating ctxC3 oid24 =
      [{ oid := oid24, rating := none, updated_at := 42 }] := by
    simp [update_product_rating, ctxC3, get_reviews_by_product,
      update_mongodb_rating, update_one, oid24, objectIdValid]
    decide
  refine ⟨h1, ?_⟩
  rw [h1]
  intro h
  simp [ctxC3] at h

/-- C3 (amended): when the relational-store read fails, no exception is
surfaced, but the invocation is not abandoned: the DAO returns the empty
list, so the handler proceeds as in the zero-review case and writes a null
aggregate to the catalog record (clearing any previously stored rating). -/
theorem read_failure_clears_rating (ctx : HandlerCtx) (pid msg : String)
    (hconn : ctx.connected = true) (hmf : ctx.mongoFailure = false)
    (hoid : objectIdValid pid = true)
    (hrel : ctx.relational = RelationalRead.failure msg) :
    catalog_rating (update_product_rating ctx pid) pid =
      (catalog_rating ctx.catalog pid).map (fun _ => (none : Option ℚ)) := by
  apply catalog_rating_after_clear ctx pid hconn hmf hoid
  rw [hrel]
  rfl

/-- Witness for the amended C3: in the concrete timeout context the stored
rating 4.5 is overwritten with null. -/
theorem read_failure_clears_rating_witness :
    catalog_rating (update_product_rating ctxC3 oid24) oid24 = some none := by
  have h := read_failure_clears_rating ctxC3 oid24 ("relational store timeout")
    rfl rfl (by decide) rfl
  rw [h]
  simp [catalog_rating, ctxC3, oid24]

/-- C8: for a fixed set of active reviews (a fixed handler context),
invoking the rating-aggregation handler any number of times in sequence
leaves exactly the catalog one invocation leaves: the stored aggregate is
a function of the review set alone. -/
theorem aggregation_is_idempotent (ctx : HandlerCtx) (pid : String)
    (c : CatalogStore) (n : Nat) :
    (fun s => update_product_rating { ctx with catalog := s } pid)^[n + 1] c =
      update_product_rating { ctx with catalog := c } pid := by
  induction n with
  | zero => simp
  | succ n ih =>
      rw [Function.iterate_succ_apply', ih]
      exact update_product_rating_idem ctx pid c

/-- Subscribers are untouched by the loop-capture step of `publish`. -/
theorem capture_loop_subscribers {H : Type} (bus : EventBus H)
    (current : Option Nat) (live : Nat → Bool) :
    (bus.capture_loop current live).subscribers = bus.subscribers := by
  unfold EventBus.capture_loop
  rcases current with _ | l
  · rfl
  · rcases h : bus.mainLoop with _ | m
    · rfl
    · by_cases hl : live m <;> simp [hl]

/-- C5: for every event, every set of registered handlers and every
behaviour of the submission step and of the handlers themselves — handlers
are opaque values of an arbitrary type `H`, so `publish` cannot invoke
them — `publish` returns normally, and when submission succeeds it submits
exactly one dispatch unit per registered handler; a handler that raises is
caught inside `_execute_handler`, which also never lets an exception
escape the worker. -/
theorem publish_nonblocking_and_isolated {H : Type} (bus : EventBus H)
    (current : Option Nat) (live : Nat → Bool) (e : Event)
    (submit : H → Event → Except String Unit)
    (isAsync mainLive : Bool) (run : Event → Except String Unit) :
    exceptOk (bus.publish current live e submit) = true ∧
    bus.publish current live e (fun _ _ => Except.ok ()) =
      Except.ok (bus.capture_loop current live,
        ((bus.capture_loop current live).subscribers e.kind).map
          (fun h => { handler := h, event := e })) ∧
    exceptOk (execute_handler isAsync mainLive run e) = true := by
  refine ⟨?_, ?_, ?_⟩
  · unfold EventBus.publish
    by_cases h : ((bus.capture_loop current live).subscribers e.kind).isEmpty <;>
      simp [h, exceptOk]
  · unfold EventBus.publish
    by_cases h : ((bus.capture_loop current live).subscribers e.kind).isEmpty
    · simp only [h, if_true]
      rw [List.isEmpty_iff.mp h]
      rfl
    · simp only [h, if_false, Bool.false_eq_true]
      rw [filterMap_some_eq_map]
  · unfold execute_handler execute_handler_body
    rcases isAsync with _ | _ <;> rcases mainLive with _ | _ <;>
      rcases run e with m | u <;> simp [exceptOk]

/-- Counterexample to C9 as stated: a publish with zero registered
handlers, arriving while an event loop runs and before any loop was
captured, is not state-free — it records the running loop in the
`_main_loop` field, so the bus state after the call differs from the bus
state before it. -/
theorem publish_no_handlers_captures_loop :
    (EventBus.empty HandlerRef).publish (some 0) (fun _ => true) sample_event
        (fun _ _ => Except.ok ()) =
      Except.ok (({ subscribers := fun _ => [], mainLoop := some 0 } : EventBus HandlerRef), []) ∧
    ({ subscribers := fun _ => [], mainLoop := some 0 } : EventBus HandlerRef) ≠
      EventBus.empty HandlerRef := by
  constructor
  · rfl
  · intro h
    have h2 := congrArg EventBus.mainLoop h
    simp [EventBus.empty] at h2

/-- C9 (amended): a publish whose event kind has zero registered handlers
submits no dispatch unit and raises nothing, for every submission
behaviour; its only state change is the loop capture, and when no event
loop is running it is a complete no-op on the bus state. -/
theorem publish_no_handlers_no_dispatch {H : Type} (bus : EventBus H)
    (current : Option Nat) (live : Nat → Bool) (e : Event)
    (submit : H → Event → Except String Unit)
    (h : bus.subscribers e.kind = []) :
    bus.publish current live e submit =
      Except.ok (bus.capture_loop current live, []) ∧
    (current = none → bus.capture_loop current live = bus) := by
  constructor
  · simp only [EventBus.publish, capture_loop_subscribers, h, List.isEmpty_nil,
      if_true]
  · intro hc
    rw [hc]
    rfl

/-- Witness for the amended C9: on the freshly constructed bus, with no
loop running, publishing is a complete no-op that submits nothing. -/
theorem publish_no_handlers_no_dispatch_witness :
    (EventBus.empty HandlerRef).publish none (fun _ => false) sample_event
        (fun _ _ => Except.ok ()) =
      Except.ok ((EventBus.empty HandlerRef).capture_loop none (fun _ => false), []) ∧
    (EventBus.empty HandlerRef).capture_loop none (fun _ => false) =
      EventBus.empty HandlerRef :=
  ⟨(publish_no_handlers_no_dispatch (EventBus.empty HandlerRef) none
      (fun _ => false) sample_event (fun _ _ => Except.ok ()) rfl).1,
   (publish_no_handlers_no_dispatch (EventBus.empty HandlerRef) none
      (fun _ => false) sample_event (fun _ _ => Except.ok ()) rfl).2 rfl⟩

/-- Counterexample to C7 as stated: `setup_event_handlers` is not
idempotent — after a second call the created-event list holds two
registrations of the rating handler instead of one, so the registries
differ. -/
theorem setup_twice_duplicates_registrations :
    ((setup_event_handlers (setup_event_handlers
        (EventBus.empty HandlerRef))).subscribers EventKind.created).length = 2 ∧
    ((setup_event_handlers
        (EventBus.empty HandlerRef)).subscribers EventKind.created).length = 1 ∧
    setup_event_handlers (setup_event_handlers (EventBus.empty HandlerRef)) ≠
      setup_event_handlers (EventBus.empty HandlerRef) := by
  refine ⟨rfl, rfl, fun h => ?_⟩
  have h2 := congrArg
    (fun b : EventBus HandlerRef => (b.subscribers EventKind.created).length) h
  exact absurd h2 (by decide)

/-- C7 (amended): one `setup_event_handlers` call maps each event kind to
exactly one registration of the rating-aggregation handler; the call is
not idempotent — a second call appends a duplicate registration for every
kind, and a publish on the doubly set-up bus submits two dispatch units
for the one handler instead of one. -/
theorem setup_registers_once_then_duplicates (k : EventKind) :
    (setup_event_handlers (EventBus.empty HandlerRef)).subscribers k =
      [handler_for k] ∧
    (setup_event_handlers (setup_event_handlers
        (EventBus.empty HandlerRef))).subscribers k =
      [handler_for k, handler_for k] ∧
    dispatch_count ((setup_event_handlers
        (EventBus.empty HandlerRef)).publish none (fun _ => false) sample_event
        (fun _ _ => Except.ok ())) = some 1 ∧
    dispatch_count ((setup_event_handlers (setup_event_handlers
        (EventBus.empty HandlerRef))).publish none (fun _ => false) sample_event
        (fun _ _ => Except.ok ())) = some 2 := by
  refine ⟨?_, ?_, rfl, rfl⟩ <;> cases k <;> rfl

/-- Counterexample to C6 as stated: a successful review mutation that
publishes no event. Updating the sample review with a new description and
no rating succeeds — the row is rewritten with the new description — yet
the service hands zero events to `publish`, because the guard at
`review_service.py` lines 115-120 only emits when the request carries a
rating. -/
theorem update_without_rating_publishes_nothing :
    published_events (update_review true [sample_row] ("r1") desc_only_update 5) =
      some [] ∧
    resulting_rows (update_review true [sample_row] ("r1") desc_only_update 5) =
      some [{ sample_row with description := "better", updated_at := 5 }] := by
  constructor <;> decide

/-- C6 (amended): on success, create and delete each hand exactly one
event of the corresponding variant, carrying the mutated product
identifier, to `publish`; update does so only when the request carries a
rating, and hands over no event at all for a successful update without a
rating. -/
theorem service_mutations_publish_once
    (db : List Review) (rid : String) (now : Nat) (upd : ReviewUpdate)
    (r : Review) (uok pok : Bool) (pid uid desc nid : String) (rating : Int)
    (huok : uok = true) (hpok : pok = true)
    (hfresh : db.any (fun x => x.user_id == uid && x.product_id == pid) = false)
    (hfound : db.find? (fun x => x.id == rid) = some r) :
    published_events (create_review true db uok pok pid uid rating desc nid now) =
      some [Event.reviewCreated pid nid uid rating now] ∧
    published_events (update_review true db rid upd now) =
      some (match upd.rating with
            | some rt => [Event.reviewUpdated r.product_id rid rt now]
            | none => []) ∧
    published_events (delete_review true db rid now) =
      some [Event.reviewDeleted r.product_id rid now] := by
  refine ⟨?_, ?_, ?_⟩
  · simp [create_review, huok, hpok, hfresh, published_events]
  · rcases hrt : upd.rating with _ | rt <;>
      simp [update_review, hfound, published_events, hrt]
  · simp [delete_review, hfound, published_events]

/-- Witness for the amended C6: on the one-row table, a create of a fresh
product-user pair, an update carrying rating 4, and a delete each publish
exactly one event of the right variant with the right product id. -/
theorem service_mutations_publish_once_witness :
    published_events (create_review true [sample_row] true true ("p9") ("u9")
        4 ("good") ("r9") 7) = some [Event.reviewCreated ("p9") ("r9") ("u9") 4 7] ∧
    published_events (update_review true [sample_row] ("r1")
        { rating := some 4, description := none, upvotes := none, downvotes := none } 7) =
      some [Event.reviewUpdated sample_row.product_id ("r1") 4 7] ∧
    published_events (delete_review true [sample_row] ("r1") 7) =
      some [Event.reviewDeleted sample_row.product_id ("r1") 7] :=
  service_mutations_publish_once [sample_row] ("r1") 7
    { rating := some 4, description := none, upvotes := none, downvotes := none }
    sample_row true true ("p9") ("u9") ("good") ("r9") 4
    rfl rfl (by decide) (by decide)

/-- C10: a successful `delete_review` removes the row from the relational
table outright (hard delete): afterwards the review id resolves in no
read — neither by primary key nor in any paginated active-review read —
every surviving row is a row of the old table (no row had its status
flipped), and the `ReviewDeleted` event is still published; by contrast,
the DAO soft delete this path never calls would have kept the row count
unchanged. -/
theorem delete_review_is_hard_delete
    (db : List Review) (rid : String) (now : Nat) (r : Review)
    (hfound : db.find? (fun x => x.id == rid) = some r) :
    resulting_rows (delete_review true db rid now) =
      some (db.filter (fun x => x.id != rid)) ∧
    get_by_id (db.filter (fun x => x.id != rid)) rid = none ∧
    (∀ pid limit offset,
      ∀ x ∈ get_reviews_by_product
          (RelationalRead.ok (db.filter (fun x => x.id != rid))) pid limit offset,
        x.id ≠ rid) ∧
    (∀ x ∈ db.filter (fun x => x.id != rid), x ∈ db) ∧
    published_events (delete_review true db rid now) =
      some [Event.reviewDeleted r.product_id rid now] ∧
    (soft_delete_review db rid now).length = db.length := by
  refine ⟨?_, ?_, ?_, ?_, ?_, ?_⟩
  · simp [delete_review, hfound, resulting_rows]
  · unfold get_by_id
    rw [List.find?_eq_none]
    intro x hx
    have := (List.mem_filter.mp hx).2
    simpa using this
  · intro pid limit offset x hx
    have hx1 := List.mem_of_mem_take hx
    have hx2 := List.mem_of_mem_drop hx1
    have hx3 : x ∈ active_reviews (db.filter (fun x => x.id != rid)) pid := by
      simpa [order_by_created_desc] using hx2
    have hx4 := List.mem_filter.mp (List.mem_filter.mp hx3).1
    simpa using hx4.2
  · intro x hx
    exact (List.mem_filter.mp hx).1
  · simp [delete_review, hfound, published_events]
  · simp [soft_delete_review]

/-- Witness for C10: deleting the sample review empties the one-row table,
the id resolves nowhere afterwards, and one `ReviewDeleted` is published. -/
theorem delete_review_is_hard_delete_witness :
    resulting_rows (delete_review true [sample_row] ("r1") 7) =
      some ([sample_row].filter (fun x => x.id != "r1")) ∧
    get_by_id ([sample_row].filter (fun x => x.id != "r1")) ("r1") = none ∧
    published_events (delete_review true [sample_row] ("r1") 7) =
      some [Event.reviewDeleted sample_row.product_id ("r1") 7] := by
  have h := delete_review_is_hard_delete [sample_row] ("r1") 7 sample_row (by decide)
  exact ⟨h.1, h.2.1, h.2.2.2.2.1⟩

/-! ## Facts about the 10001-review table, for the read-cap claim. -/

theorem big_db_mem (r : Review) (hr : r ∈ big_db) :
    r = row3 ∨ r = row2 ∨ r = row1 := by
  simp only [big_db, List.mem_append, List.mem_replicate, List.mem_singleton] at hr
  rcases hr with ⟨_, h⟩ | ⟨⟨_, h⟩ | h⟩
  · exact Or.inl h
  · exact Or.inr (Or.inl h)
  · exact Or.inr (Or.inr h)

theorem big_db_created (r : Review) (hr : r ∈ big_db) : r.created_at = 0 := by
  rcases big_db_mem r hr with h | h | h <;> subst h <;> rfl

theorem active_big : active_reviews big_db oidBig = big_db := by
  unfold active_reviews
  rw [List.filter_eq_self]
  intro a ha
  rcases big_db_mem a ha with h | h | h <;> subst h <;> decide

theorem sorted_big : order_by_created_desc big_db = big_db :=
  order_by_created_desc_of_sorted (pairwise_of_all big_db (fun a ha b hb => by
    rw [big_db_created a ha, big_db_created b hb]))

theorem take_big : big_db.take 10000 =
    List.replicate 9950 row3 ++ List.replicate 50 row2 := by
  unfold big_db
  rw [List.take_append_eq_append_take, List.take_replicate, List.length_replicate,
    List.take_append_eq_append_take, List.take_replicate, List.length_replicate]
  norm_num

theorem read_big : get_reviews_by_product (RelationalRead.ok big_db) oidBig 10000 0 =
    List.replicate 9950 row3 ++ List.replicate 50 row2 := by
  simp only [get_reviews_by_product]
  rw [active_big, sorted_big, List.drop_zero, take_big]

theorem len_taken : (List.replicate 9950 row3 ++ List.replicate 50 row2).length = 10000 := by
  rw [List.length_append, List.length_replicate, List.length_replicate]

theorem sum_taken :
    (((List.replicate 9950 row3 ++ List.replicate 50 row2).map
        (fun r => (r.rating : ℚ))).sum) = 29950 := by
  rw [List.map_append, List.sum_append, List.map_replicate, List.map_replicate,
    List.sum_replicate, List.sum_replicate]
  norm_num [row3, row2]

theorem len_big : big_db.length = 10001 := by
  unfold big_db
  rw [List.length_append, List.length_append, List.length_replicate,
    List.length_replicate]
  rfl

theorem sum_big : ((big_db.map (fun r => (r.rating : ℚ))).sum) = 29951 := by
  unfold big_db
  rw [List.map_append, List.sum_append, List.map_append, List.sum_append,
    List.map_replicate, List.map_replicate, List.sum_replicate, List.sum_replicate]
  norm_num [row3, row2, row1]

/-- Counterexample to C4 as stated: the handler read is paginated after
all — `_update_product_rating` passes `limit=10000` and the DAO applies
it. On a product with 10001 active reviews (9950 threes, 50 twos, and one
older one-star review), only 10000 reviews enter the mean: the handler
stores 3.00, while the mean over all 10001 active reviews rounds to 2.99. -/
theorem read_capped_at_10000_counterexample :
    (active_reviews big_db oidBig).length = 10001 ∧
    (get_reviews_by_product (RelationalRead.ok big_db) oidBig 10000 0).length = 10000 ∧
    catalog_rating (update_product_rating ctxBig oidBig) oidBig = some (some 3) ∧
    round2 ((((active_reviews big_db oidBig).map (fun r => (r.rating : ℚ))).sum) /
      ((active_reviews big_db oidBig).length : ℚ)) = 299 / 100 ∧
    (3 : ℚ) ≠ 299 / 100 := by
  have hne : (List.replicate 9950 row3 ++ List.replicate 50 row2 : List Review) ≠ [] := by
    intro h
    have := congrArg List.length h
    rw [len_taken] at this
    exact absurd this (by decide)
  refine ⟨?_, ?_, ?_, ?_, by norm_num⟩
  · rw [active_big, len_big]
  · rw [read_big, len_taken]
  · have h := catalog_rating_after_mean ctxBig oidBig
      (List.replicate 9950 row3 ++ List.replicate 50 row2) rfl rfl (by decide)
      read_big hne
    rw [h, sum_taken, len_taken]
    have hr2 : round2 ((29950 : ℚ) / ((10000 : Nat) : ℚ)) = 3 := by
      norm_num [round2, roundHalfEven, qfloor]
    rw [hr2]
    simp [catalog_rating, ctxBig, oidBig]
  · rw [active_big, sum_big, len_big]
    norm_num [round2, roundHalfEven, qfloor]

/-- C4 (amended): the handler read is capped at 10000 rows
(`limit=10000, offset=0`): the number of reviews read is the minimum of
the active-review count and 10000, and whenever the product has at most
10000 active reviews the read is a permutation of all of them, so the
mean is then computed over the full active set. -/
theorem handler_read_capped (rows : List Review) (pid : String) :
    (get_reviews_by_product (RelationalRead.ok rows) pid 10000 0).length =
      min (active_reviews rows pid).length 10000 ∧
    ((active_reviews rows pid).length ≤ 10000 →
      (get_reviews_by_product (RelationalRead.ok rows) pid 10000 0).Perm
        (active_reviews rows pid)) := by
  constructor
  · simp only [get_reviews_by_product, List.drop_zero, List.length_take,
      order_by_created_desc, List.length_mergeSort]
    exact Nat.min_comm 10000 (active_reviews rows pid).length
  · intro h
    simp only [get_reviews_by_product, List.drop_zero, order_by_created_desc]
    rw [List.take_of_length_le (by rw [List.length_mergeSort]; exact h)]
    exact List.mergeSort_perm (active_reviews rows pid) _

/-- Witness for the amended C4: the three-review table is far below the
cap, so the read returns all three active reviews (up to order) and its
length matches the minimum formula. -/
theorem handler_read_capped_witness :
    (get_reviews_by_product (RelationalRead.ok wdb) oid24 10000 0).length =
      min (active_reviews wdb oid24).length 10000 ∧
    (get_reviews_by_product (RelationalRead.ok wdb) oid24 10000 0).Perm
      (active_reviews wdb oid24) :=
  ⟨(handler_read_capped wdb oid24).1,
   (handler_read_capped wdb oid24).2 (by decide)⟩

end CredStore
